import Mathlib

/-!
Verification of the LaughRx repository's text-heuristic and parsing layer.

Python source files are shallowly embedded: each Python function is
translated into a computable Lean definition that keeps the source's
name and control flow.  Python strings become `String`, Python's
substring test `k in s` becomes `containsSub k s`, Python `None`
becomes `Option`, Python numbers become `Rat`/`Int`, and exceptions
become `Except PyExn`.
-/

/-- Python exceptions that the embedded code can raise.  Only the
constructors that the translated code actually produces are modelled. -/
inductive PyExn where
  | jsonDecodeError
  | valueError
  | keyError
  | typeError
deriving DecidableEq, Repr

/-- Bool test for `l₁` being an infix of `l₂`, by scanning suffixes. -/
def subAux : List Char → List Char → Bool
  | n, [] => n.isEmpty
  | n, c :: t => n.isPrefixOf (c :: t) || subAux n t

/-- Python's substring containment `needle in hay` on strings. -/
def containsSub (needle hay : String) : Bool :=
  subAux needle.toList hay.toList

/-- Python's `str.lower()` (the keyword lists are ASCII, where
`Char.toLower` agrees with Python), written over the character list so
that it evaluates inside the kernel. -/
def pyLower (s : String) : String :=
  String.mk (s.data.map Char.toLower)

/-- Python's `any(k in text for k in keywords)`. -/
def anyKeyword (keywords : List String) (text : String) : Bool :=
  keywords.any (fun k => containsSub k text)

/-! ## src/function_calling.py — analyze_symptom_severity -/

/-- Result dictionary of `analyze_symptom_severity`. -/
structure SymptomSeverityResult where
  severity_level : String
  urgency : String
  risk_factors : List String
  recommendations : List String
  follow_up_needed : Bool
deriving DecidableEq, Repr

/-- Emergency keyword list of `analyze_symptom_severity`. -/
def emergency_keywords : List String :=
  [("chest pain"), ("difficulty breathing"), ("severe headache"), ("loss of consciousness"),
   ("severe bleeding"), ("stroke symptoms"), ("heart attack")]

/-- High severity keyword list of `analyze_symptom_severity`. -/
def high_severity : List String :=
  [("persistent fever"), ("severe pain"), ("vision changes"), ("severe dizziness")]

/-- Moderate severity keyword list of `analyze_symptom_severity`. -/
def moderate_severity : List String :=
  [("headache"), ("back pain"), ("fatigue"), ("nausea"), ("muscle pain")]

/-- Helper `_identify_risk_factors` from src/function_calling.py. -/
def identify_risk_factors (symptoms : String) : List String :=
  (if containsSub ("chest") symptoms then [("Cardiovascular concern")] else []) ++
  (if containsSub ("headache") symptoms && containsSub ("severe") symptoms then
    [("Neurological concern")] else []) ++
  (if containsSub ("breathing") symptoms then [("Respiratory concern")] else [])

/-- Embedding of `analyze_symptom_severity` (src/function_calling.py,
lines 180-229).  The sequential reassignments of `severity_level` and
`urgency` are expressed as a chain of lets. -/
def analyze_symptom_severity (symptoms : String) (duration : Option String)
    (intensity : Option Int) : SymptomSeverityResult :=
  let symptoms_lower := pyLower symptoms
  let base : String × String × List String :=
    if anyKeyword emergency_keywords symptoms_lower then
      (("emergency"), ("immediate"),
        [("Seek immediate medical attention"), ("Call emergency services if severe")])
    else if anyKeyword high_severity symptoms_lower then
      (("high"), ("urgent"),
        [("Consult healthcare provider within 24 hours"), ("Monitor symptoms closely")])
    else if anyKeyword moderate_severity symptoms_lower then
      (("moderate"), ("routine"),
        [("Self-care measures appropriate"), ("See doctor if symptoms persist")])
    else ((("low")), (("routine")), [])
  let sev2 : String :=
    match duration with
    | some d =>
        if d ≠ ("") ∧ (containsSub ("weeks") d || containsSub ("months") d) then
          (if base.1 = ("low") then ("moderate") else base.1)
        else base.1
    | none => base.1
  let sev3 : String × String :=
    match intensity with
    | some i =>
        if i ≠ 0 ∧ 8 ≤ i then
          (if sev2 ≠ ("emergency") then ((("high")), (("urgent"))) else (sev2, base.2.1))
        else (sev2, base.2.1)
    | none => (sev2, base.2.1)
  { severity_level := sev3.1
    urgency := sev3.2
    risk_factors := identify_risk_factors symptoms_lower
    recommendations := base.2.2
    follow_up_needed := (sev3.1 == ("high")) || (sev3.1 == ("emergency")) }

/-! ## src/chain_of_thought.py — _step_2_assess_severity -/

/-- The `ReasoningStep` enum of src/chain_of_thought.py. -/
inductive ReasoningStep where
  | symptom_identification
  | severity_assessment
  | differential_diagnosis
  | risk_evaluation
  | treatment_consideration
  | lifestyle_analysis
  | follow_up_planning
deriving DecidableEq, Repr

/-- The `ThoughtStep` dataclass of src/chain_of_thought.py. -/
structure ThoughtStep where
  step_number : Nat
  step_type : ReasoningStep
  thought : String
  reasoning : String
  conclusion : String
deriving DecidableEq, Repr

/-- Emergency indicator list of `_step_2_assess_severity`. -/
def cot_emergency_keywords : List String :=
  [("chest pain"), ("difficulty breathing"), ("loss of consciousness")]

/-- The ordered `severity_indicators` dict of `_step_2_assess_severity`
(insertion order of the Python dict). -/
def severity_indicators : List (String × List String) :=
  [(("mild"), [("slight"), ("minor"), ("little"), ("sometimes")]),
   (("moderate"), [("headache"), ("tired"), ("sore"), ("uncomfortable")]),
   (("severe"), [("severe"), ("intense"), ("unbearable"), ("can\x27t"), ("unable")]),
   (("emergency"), cot_emergency_keywords)]

/-- The indicator loop of `_step_2_assess_severity`: iterate over the
dict in order, overwriting `severity_level` on each matching level. -/
def assess_severity_level (symptoms_lower : String) : String :=
  severity_indicators.foldl
    (fun acc p => if anyKeyword p.2 symptoms_lower then p.1 else acc) ("mild")

/-- Embedding of `_step_2_assess_severity` (src/chain_of_thought.py,
lines 244-270).  The unused `user_context` parameter is kept. -/
def step_2_assess_severity (symptoms : String)
    (user_context : List (String × String)) : ThoughtStep :=
  let symptoms_lower := pyLower symptoms
  let severity_level := assess_severity_level symptoms_lower
  { step_number := 2
    step_type := ReasoningStep.severity_assessment
    thought := ("Evaluating symptom severity and urgency")
    reasoning := ("Based on language used (\x27") ++ symptoms ++ ("\x27), this appears to be ")
      ++ severity_level ++ (" severity. No immediate red flags for emergency conditions detected.")
    conclusion := ("Severity assessment: ") ++ severity_level ++ (". ")
      ++ (if severity_level = ("emergency") then ("Immediate medical attention needed")
          else ("Can proceed with systematic evaluation")) ++ (".") }

/-- C1: any emergency keyword in the (lowercased) text forces the most
severe outcome: `analyze_symptom_severity` answers severity_level
"emergency" for all duration/intensity arguments, and
`_step_2_assess_severity` concludes severity "emergency", each module
using its own emergency keyword list. -/
theorem c1_emergency_keyword_dominates :
    (∀ (symptoms : String) (duration : Option String) (intensity : Option Int),
      anyKeyword emergency_keywords (pyLower symptoms) = true →
      (analyze_symptom_severity symptoms duration intensity).severity_level = ("emergency")) ∧
    (∀ (symptoms : String) (user_context : List (String × String)),
      anyKeyword cot_emergency_keywords (pyLower symptoms) = true →
      assess_severity_level (pyLower symptoms) = ("emergency") ∧
      (step_2_assess_severity symptoms user_context).conclusion =
        ("Severity assessment: emergency. Immediate medical attention needed.")) := by
  constructor
  · intro symptoms duration intensity h
    unfold analyze_symptom_severity
    simp only [h, if_true]
    cases duration with
    | none =>
        cases intensity with
        | none => rfl
        | some i =>
            by_cases hi : i ≠ 0 ∧ 8 ≤ i
            · simp [hi]
            · simp [hi]
    | some d =>
        by_cases hd : d ≠ ("") ∧ (containsSub ("weeks") d || containsSub ("months") d)
        · cases intensity with
          | none => simp [hd]
          | some i =>
              by_cases hi : i ≠ 0 ∧ 8 ≤ i
              · simp [hd, hi]
              · simp [hd, hi]
        · cases intensity with
          | none => simp [hd]
          | some i =>
              by_cases hi : i ≠ 0 ∧ 8 ≤ i
              · simp [hd, hi]
              · simp [hd, hi]
  · intro symptoms user_context h
    have hs : assess_severity_level (pyLower symptoms) = ("emergency") := by
      unfold assess_severity_level severity_indicators
      simp only [List.foldl]
      simp [h]
    refine ⟨hs, ?_⟩
    unfold step_2_assess_severity
    simp only [hs]
    rfl

/-- C1 witness: a text containing the emergency keyword "chest pain"
together with a mild co-occurring keyword is still classified as
emergency by both modules, for a concrete duration and intensity. -/
theorem c1_emergency_keyword_dominates_witness :
    (analyze_symptom_severity ("mild headache with chest pain") (some ("two weeks"))
      (some 3)).severity_level = ("emergency") ∧
    (step_2_assess_severity ("mild headache with chest pain") []).conclusion =
      ("Severity assessment: emergency. Immediate medical attention needed.") :=
  ⟨c1_emergency_keyword_dominates.1 ("mild headache with chest pain") (some ("two weeks"))
      (some 3) (by decide),
   (c1_emergency_keyword_dominates.2 ("mild headache with chest pain") [] (by decide)).2⟩

/-! ## src/function_calling.py — check_emergency_symptoms -/

/-- Result dictionary of `check_emergency_symptoms`. -/
structure EmergencyCheckResult where
  is_emergency : Bool
  emergency_types : List String
  immediate_actions : List String
  call_911 : Bool
  urgency_level : String
deriving DecidableEq, Repr

/-- The ordered `emergency_indicators` dict of `check_emergency_symptoms`. -/
def emergency_indicators : List (String × List String) :=
  [(("cardiac"), [("chest pain"), ("heart attack"), ("severe chest pressure")]),
   (("neurological"), [("stroke"), ("severe headache"), ("loss of consciousness"), ("confusion")]),
   (("respiratory"), [("difficulty breathing"), ("shortness of breath"), ("can\x27t breathe")]),
   (("bleeding"), [("severe bleeding"), ("heavy bleeding"), ("blood loss")]),
   (("allergic"), [("severe allergic reaction"), ("anaphylaxis"), ("swelling throat")])]

/-- Helper `_get_emergency_actions` from src/function_calling.py. -/
def get_emergency_actions (emergency_types : List String) : List String :=
  [("Call 911 immediately")] ++
  (if emergency_types.contains ("cardiac") then [("If available, take aspirin")] else []) ++
  (if emergency_types.contains ("respiratory") then
    [("Sit upright, loosen tight clothing")] else []) ++
  (if emergency_types.contains ("allergic") then [("Use EpiPen if available")] else [])

/-- Embedding of `check_emergency_symptoms` (src/function_calling.py,
lines 272-299).  The `vital_signs` parameter is unused in the source
and omitted. -/
def check_emergency_symptoms (symptoms : String) : EmergencyCheckResult :=
  let symptoms_lower := pyLower symptoms
  let detected_emergencies :=
    (emergency_indicators.filter (fun p => anyKeyword p.2 symptoms_lower)).map (fun p => p.1)
  let is_emergency : Bool := decide (0 < detected_emergencies.length)
  { is_emergency := is_emergency
    emergency_types := detected_emergencies
    immediate_actions := get_emergency_actions detected_emergencies
    call_911 := is_emergency
    urgency_level := if is_emergency then ("CRITICAL") else ("NORMAL") }

/-- C10: in every `check_emergency_symptoms` result, `call_911` equals
`is_emergency`, `urgency_level` is "CRITICAL" exactly on emergencies
and "NORMAL" otherwise, and `is_emergency` holds iff some keyword of
the five indicator categories occurs in the lowercased text. -/
theorem c10_check_emergency_consistency :
    ∀ symptoms : String,
      (check_emergency_symptoms symptoms).call_911 =
        (check_emergency_symptoms symptoms).is_emergency ∧
      (check_emergency_symptoms symptoms).urgency_level =
        (if (check_emergency_symptoms symptoms).is_emergency
          then ("CRITICAL") else ("NORMAL")) ∧
      ((check_emergency_symptoms symptoms).is_emergency = true ↔
        ∃ p ∈ emergency_indicators, ∃ k ∈ p.2,
          containsSub k (pyLower symptoms) = true) := by
  intro symptoms
  refine ⟨rfl, rfl, ?_⟩
  unfold check_emergency_symptoms
  simp only [List.length_map, decide_eq_true_eq, List.length_pos_iff_ne_nil, ne_eq,
    List.filter_eq_nil_iff, anyKeyword, List.any_eq_true, not_forall]
  constructor
  · rintro ⟨p, hp, hnot⟩
    rw [Classical.not_not] at hnot
    obtain ⟨k, hk, hsub⟩ := hnot
    exact ⟨p, hp, k, hk, hsub⟩
  · rintro ⟨p, hp, k, hk, hsub⟩
    exact ⟨p, hp, by simpa using ⟨k, hk, hsub⟩⟩

/-! ## src/temperature_control.py -/

/-- The `ResponseContext` enum of src/temperature_control.py. -/
inductive ResponseContext where
  | emergency
  | serious_medical
  | general_health
  | wellness_tip
  | humor_roast
deriving DecidableEq, Repr

/-- The `TemperatureConfig` dataclass of src/temperature_control.py.
Temperatures are embedded as rationals. -/
structure TemperatureConfig where
  context : ResponseContext
  temperature : ℚ
  description : String
  use_case : String
deriving DecidableEq, Repr

/-- The dict built by `_create_temperature_configs`, keyed by the
`ResponseContext` enum (all five keys are present, so it is embedded
as a total function). -/
def temperature_configs : ResponseContext → TemperatureConfig
  | ResponseContext.emergency =>
    { context := ResponseContext.emergency
      temperature := 1/10
      description := ("Very low temperature for consistent, reliable emergency responses")
      use_case := ("Chest pain, severe symptoms, immediate medical attention needed") }
  | ResponseContext.serious_medical =>
    { context := ResponseContext.serious_medical
      temperature := 3/10
      description := ("Low temperature for consistent medical advice")
      use_case := ("Chronic conditions, medication questions, concerning symptoms") }
  | ResponseContext.general_health =>
    { context := ResponseContext.general_health
      temperature := 5/10
      description := ("Balanced temperature for reliable yet engaging responses")
      use_case := ("Common symptoms like headaches, fatigue, minor issues") }
  | ResponseContext.wellness_tip =>
    { context := ResponseContext.wellness_tip
      temperature := 6/10
      description := ("Moderate temperature for engaging wellness advice")
      use_case := ("Exercise tips, nutrition advice, lifestyle improvements") }
  | ResponseContext.humor_roast =>
    { context := ResponseContext.humor_roast
      temperature := 8/10
      description := ("High temperature for creative, varied roasts")
      use_case := ("Humorous observations about lifestyle choices") }

/-- Emergency keyword list of `determine_context`. -/
def tc_emergency_keywords : List String :=
  [("chest pain"), ("heart attack"), ("can\x27t breathe"), ("shortness of breath"),
   ("severe bleeding"), ("unconscious"), ("stroke"), ("seizure"), ("overdose"),
   ("severe allergic reaction"), ("choking")]

/-- Serious medical keyword list of `determine_context`. -/
def tc_serious_keywords : List String :=
  [("chronic pain"), ("depression"), ("anxiety"), ("medication"), ("prescription"),
   ("blood pressure"), ("diabetes"), ("cancer"), ("tumor"), ("infection")]

/-- Wellness keyword list of `determine_context`. -/
def tc_wellness_keywords : List String :=
  [("exercise"), ("diet"), ("nutrition"), ("weight loss"), ("fitness"),
   ("healthy habits"), ("lifestyle"), ("prevention"), ("wellness")]

/-- Embedding of `determine_context` (src/temperature_control.py,
lines 151-189).  The unused `user_context` parameter is omitted. -/
def determine_context (symptoms : String) : ResponseContext :=
  let symptoms_lower := pyLower symptoms
  if anyKeyword tc_emergency_keywords symptoms_lower then ResponseContext.emergency
  else if anyKeyword tc_serious_keywords symptoms_lower then ResponseContext.serious_medical
  else if anyKeyword tc_wellness_keywords symptoms_lower then ResponseContext.wellness_tip
  else ResponseContext.general_health

/-! ## src/chain_of_thought.py — _determine_reasoning_type -/

/-- Emergency keyword list of `_determine_reasoning_type`. -/
def drt_emergency_keywords : List String :=
  [("chest pain"), ("difficulty breathing"), ("severe"), ("can\x27t breathe")]

/-- Tracked symptom words of `_determine_reasoning_type`. -/
def drt_symptom_words : List String :=
  [("headache"), ("pain"), ("tired"), ("nausea"), ("dizzy")]

/-- Lifestyle keyword list of `_determine_reasoning_type`. -/
def drt_lifestyle_keywords : List String :=
  [("work"), ("desk"), ("computer"), ("stress"), ("sleep"), ("posture")]

/-- Wellness keyword list of `_determine_reasoning_type`. -/
def drt_wellness_keywords : List String :=
  [("improve"), ("better"), ("healthy"), ("prevent"), ("optimize")]

/-- Embedding of `_determine_reasoning_type` (src/chain_of_thought.py,
lines 562-589).  The unused `user_context` parameter is omitted. -/
def determine_reasoning_type (symptoms : String) : String :=
  let symptoms_lower := pyLower symptoms
  if anyKeyword drt_emergency_keywords symptoms_lower then ("emergency_assessment")
  else
    let symptom_count := (drt_symptom_words.filter (fun w => containsSub w symptoms_lower)).length
    if 2 ≤ symptom_count then ("complex_multi_symptom")
    else if anyKeyword drt_lifestyle_keywords symptoms_lower then ("lifestyle_related")
    else if anyKeyword drt_wellness_keywords symptoms_lower then ("wellness_optimization")
    else ("simple_symptom")

/-- C5: the category selector applies its tie-break rules in priority
order: emergency keywords dominate; else a tracked-symptom count of at
least 2 selects the multi-symptom category; else lifestyle keywords,
then wellness keywords; else the default. -/
theorem c5_reasoning_type_priority :
    ∀ symptoms : String,
      (anyKeyword drt_emergency_keywords (pyLower symptoms) = true →
        determine_reasoning_type symptoms = ("emergency_assessment")) ∧
      (anyKeyword drt_emergency_keywords (pyLower symptoms) = false →
        2 ≤ (drt_symptom_words.filter (fun w => containsSub w (pyLower symptoms))).length →
        determine_reasoning_type symptoms = ("complex_multi_symptom")) ∧
      (anyKeyword drt_emergency_keywords (pyLower symptoms) = false →
        (drt_symptom_words.filter (fun w => containsSub w (pyLower symptoms))).length < 2 →
        anyKeyword drt_lifestyle_keywords (pyLower symptoms) = true →
        determine_reasoning_type symptoms = ("lifestyle_related")) ∧
      (anyKeyword drt_emergency_keywords (pyLower symptoms) = false →
        (drt_symptom_words.filter (fun w => containsSub w (pyLower symptoms))).length < 2 →
        anyKeyword drt_lifestyle_keywords (pyLower symptoms) = false →
        anyKeyword drt_wellness_keywords (pyLower symptoms) = true →
        determine_reasoning_type symptoms = ("wellness_optimization")) ∧
      (anyKeyword drt_emergency_keywords (pyLower symptoms) = false →
        (drt_symptom_words.filter (fun w => containsSub w (pyLower symptoms))).length < 2 →
        anyKeyword drt_lifestyle_keywords (pyLower symptoms) = false →
        anyKeyword drt_wellness_keywords (pyLower symptoms) = false →
        determine_reasoning_type symptoms = ("simple_symptom")) := by
  intro symptoms
  refine ⟨?_, ?_, ?_, ?_, ?_⟩ <;> unfold determine_reasoning_type
  · intro h1
    simp [h1]
  · intro h1 h2
    simp [h1, h2]
  · intro h1 h2 h3
    simp [h1, Nat.not_le_of_lt h2, h3]
  · intro h1 h2 h3 h4
    simp [h1, Nat.not_le_of_lt h2, h3, h4]
  · intro h1 h2 h3 h4
    simp [h1, Nat.not_le_of_lt h2, h3, h4]

/-- C5 witness: the five priority branches, each exercised on a
concrete input text. -/
theorem c5_reasoning_type_priority_witness :
    determine_reasoning_type ("severe back ache") = ("emergency_assessment") ∧
    determine_reasoning_type ("headache and nausea") = ("complex_multi_symptom") ∧
    determine_reasoning_type ("desk job posture") = ("lifestyle_related") ∧
    determine_reasoning_type ("how to improve my diet") = ("wellness_optimization") ∧
    determine_reasoning_type ("runny nose") = ("simple_symptom") :=
  ⟨(c5_reasoning_type_priority ("severe back ache")).1 (by decide),
   (c5_reasoning_type_priority ("headache and nausea")).2.1 (by decide) (by decide),
   (c5_reasoning_type_priority ("desk job posture")).2.2.1 (by decide) (by decide) (by decide),
   (c5_reasoning_type_priority ("how to improve my diet")).2.2.2.1 (by decide) (by decide)
     (by decide) (by decide),
   (c5_reasoning_type_priority ("runny nose")).2.2.2.2 (by decide) (by decide) (by decide)
     (by decide)⟩

/-- C4: on the input "I have chest pain and can't breathe", the
reasoning-type selector answers "emergency_assessment", the temperature
context selector answers EMERGENCY whose configured temperature is 0.1,
and the emergency checker reports an emergency with call_911 true. -/
theorem c4_chest_pain_scenario :
    determine_reasoning_type ("I have chest pain and can\x27t breathe") =
      ("emergency_assessment") ∧
    determine_context ("I have chest pain and can\x27t breathe") = ResponseContext.emergency ∧
    (temperature_configs ResponseContext.emergency).temperature = 1/10 ∧
    (check_emergency_symptoms ("I have chest pain and can\x27t breathe")).is_emergency = true ∧
    (check_emergency_symptoms ("I have chest pain and can\x27t breathe")).call_911 = true := by
  refine ⟨by decide, by decide, by norm_num [temperature_configs], by decide, by decide⟩

/-! ## src/function_calling.py — calculate_hydration_needs -/

/-- Python's banker's rounding `round(x)` to an integer. -/
def roundHalfEven (x : ℚ) : ℤ :=
  let n := ⌊x⌋
  let f := x - n
  if f < 1/2 then n
  else if 1/2 < f then n + 1
  else if n % 2 = 0 then n else n + 1

/-- Python's `round(x, 1)`. -/
def pyRound1 (x : ℚ) : ℚ :=
  (roundHalfEven (x * 10) : ℚ) / 10

/-- Python's `int(x)` truncation toward zero on a rational. -/
def pyInt (x : ℚ) : ℤ :=
  if 0 ≤ x then ⌊x⌋ else -⌊-x⌋

/-- Result dictionary of `calculate_hydration_needs`. -/
structure HydrationResult where
  daily_water_liters : ℚ
  daily_water_glasses : ℤ
  activity_adjustment : String
  hydration_tips : List String
deriving DecidableEq, Repr

/-- The `activity_multipliers` dict of `calculate_hydration_needs`. -/
def activity_multipliers : List (String × ℚ) :=
  [(("sedentary"), 1), (("moderate"), 12/10), (("active"), 15/10), (("very_active"), 18/10)]

/-- Embedding of `calculate_hydration_needs` (src/function_calling.py,
lines 488-510).  Python floats are embedded as rationals; at the one
decimal digit the function reports, float and rational rounding agree
on these values. -/
def calculate_hydration_needs (weight_kg : ℚ) (activity_level : String) : HydrationResult :=
  let base_water := weight_kg * 35
  let multiplier := (List.lookup activity_level activity_multipliers).getD (12/10)
  let daily_water_ml := base_water * multiplier
  let daily_water_liters := daily_water_ml / 1000
  { daily_water_liters := pyRound1 daily_water_liters
    daily_water_glasses := roundHalfEven (daily_water_ml / 250)
    activity_adjustment := toString (pyInt ((multiplier - 1) * 100)) ++ ("% increase for ")
      ++ activity_level
    hydration_tips := [("Drink water throughout the day"), ("Monitor urine color"),
      ("Increase intake in hot weather")] }

/-- Activity multiplier exactly as the claim words it: sedentary 1.0,
moderate 1.2, active 1.5, very_active 1.8, unknown levels treated
as 1.2. -/
def activity_multiplier_spec (activity_level : String) : ℚ :=
  if activity_level = ("sedentary") then 1
  else if activity_level = ("moderate") then 12/10
  else if activity_level = ("active") then 15/10
  else if activity_level = ("very_active") then 18/10
  else 12/10

/-- C7: for weight 70 kg and activity "moderate" the hydration
calculator reports 70×35×1.2/1000 = 2.94 litres at its one-decimal
reporting precision (i.e. 2.9), and in general it computes
weight×35 ml scaled by the claimed activity multiplier before
rounding. -/
theorem c7_hydration_needs :
    ((70 * 35 * (12/10) : ℚ) / 1000) = 294/100 ∧
    (calculate_hydration_needs 70 ("moderate")).daily_water_liters =
      pyRound1 ((294 : ℚ)/100) ∧
    (calculate_hydration_needs 70 ("moderate")).daily_water_liters = 29/10 ∧
    (∀ (weight_kg : ℚ) (activity_level : String),
      (calculate_hydration_needs weight_kg activity_level).daily_water_liters =
        pyRound1 (weight_kg * 35 * activity_multiplier_spec activity_level / 1000)) := by
  have hmul : ∀ (activity_level : String),
      (List.lookup activity_level activity_multipliers).getD (12/10) =
        activity_multiplier_spec activity_level := by
    intro lvl
    unfold activity_multipliers activity_multiplier_spec
    simp only [List.lookup]
    by_cases h1 : lvl = ("sedentary")
    · simp [beq_iff_eq, h1]
    · by_cases h2 : lvl = ("moderate")
      · simp [beq_iff_eq, h1, h2]
      · by_cases h3 : lvl = ("active")
        · simp [beq_iff_eq, h1, h2, h3]
        · by_cases h4 : lvl = ("very_active")
          · simp [beq_iff_eq, h1, h2, h3, h4]
          · have e1 : (lvl == ("sedentary")) = false := beq_eq_false_iff_ne.mpr h1
            have e2 : (lvl == ("moderate")) = false := beq_eq_false_iff_ne.mpr h2
            have e3 : (lvl == ("active")) = false := beq_eq_false_iff_ne.mpr h3
            have e4 : (lvl == ("very_active")) = false := beq_eq_false_iff_ne.mpr h4
            simp [e1, e2, e3, e4, h1, h2, h3, h4]
  have hgen : ∀ (weight_kg : ℚ) (activity_level : String),
      (calculate_hydration_needs weight_kg activity_level).daily_water_liters =
        pyRound1 (weight_kg * 35 * activity_multiplier_spec activity_level / 1000) := by
    intro w lvl
    unfold calculate_hydration_needs
    simp only [hmul]
  have hmod : activity_multiplier_spec ("moderate") = 12/10 := by
    unfold activity_multiplier_spec
    rw [if_neg (by decide), if_pos rfl]
  have harg : (70 : ℚ) * 35 * activity_multiplier_spec ("moderate") / 1000 = 294/100 := by
    rw [hmod]
    norm_num
  have hfloor : (⌊(294 : ℚ)/100 * 10⌋ : ℤ) = 29 := by
    rw [Int.floor_eq_iff]
    norm_num
  have hval : pyRound1 ((294 : ℚ)/100) = 29/10 := by
    unfold pyRound1 roundHalfEven
    rw [hfloor]
    norm_num
  refine ⟨by norm_num, ?_, ?_, hgen⟩
  · rw [hgen, harg]
  · rw [hgen, harg, hval]

/-! ## src/tokens_and_tokenization.py — _bpe_approximate_tokenize -/

/-- ASCII approximation of the regex class `\w` used by
`re.findall(r"\b\w+\b|[^\w\s]", text)`. -/
def isWordChar (c : Char) : Bool :=
  c.isAlphanum || c = ('_')

/-- ASCII approximation of the regex class `\s`. -/
def isSpaceChar (c : Char) : Bool :=
  c = (' ') || c = ('\t') || c = ('\n') || c = ('\r')

/-- Splits off the maximal run of word characters. -/
def wordRun : List Char → List Char × List Char
  | [] => ([], [])
  | c :: t =>
      if isWordChar c then
        let p := wordRun t
        (c :: p.1, p.2)
      else ([], c :: t)

theorem wordRun_rest_length : ∀ l : List Char, (wordRun l).2.length ≤ l.length := by
  intro l
  induction l with
  | nil => simp [wordRun]
  | cons c t ih =>
      unfold wordRun
      by_cases h : isWordChar c
      · simpa [h] using Nat.le_succ_of_le ih
      · simp [h]

/-- The word/token scanner behaviour of
`re.findall(r"\b\w+\b|[^\w\s]", text)`: maximal word-character runs
become tokens, other non-space characters become single-character
tokens, and whitespace is skipped. -/
def findallTokens : List Char → List (List Char)
  | [] => []
  | c :: t =>
      if isWordChar c then
        (c :: (wordRun t).1) :: findallTokens (wordRun t).2
      else if isSpaceChar c then findallTokens t
      else [c] :: findallTokens t
termination_by l => l.length
decreasing_by
  · exact Nat.lt_succ_of_le (wordRun_rest_length t)
  · exact Nat.lt_succ_self _
  · exact Nat.lt_succ_self _

/-- The fixed 4-character chunking loop
`for i in range(0, len(word), chunk_size)` of
`_bpe_approximate_tokenize`. -/
def chunk4 : List Char → List (List Char)
  | [] => []
  | c :: t => (c :: t).take 4 :: chunk4 (t.drop 3)
termination_by l => l.length
decreasing_by
  exact Nat.lt_succ_of_le (t.length_drop 3 ▸ Nat.sub_le _ _)

/-- Per-word token emission of `_bpe_approximate_tokenize`
(src/tokens_and_tokenization.py, lines 195-219): words of length at
most 3 and words of length 4..6 are kept whole; longer words are cut
into fixed 4-character chunks. -/
def bpe_word (w : List Char) : List (List Char) :=
  if w.length ≤ 3 then [w]
  else if w.length ≤ 6 then [w]
  else chunk4 w

/-- Embedding of `_bpe_approximate_tokenize`: word-level split followed
by per-word emission. -/
def bpe_approximate_tokenize (text : String) : List String :=
  (((findallTokens text.data).map bpe_word).flatten).map (fun l => String.mk l)

theorem chunk4_cons (c : Char) (t : List Char) :
    chunk4 (c :: t) = (c :: t).take 4 :: chunk4 (t.drop 3) := by
  simp [chunk4]

theorem chunk4_flatten : ∀ l : List Char, (chunk4 l).flatten = l := by
  intro l
  induction l using chunk4.induct with
  | case1 => simp [chunk4]
  | case2 c t ih =>
      rw [chunk4_cons]
      show (c :: t).take 4 ++ (chunk4 (t.drop 3)).flatten = c :: t
      rw [ih]
      have : (c :: t).take 4 = c :: t.take 3 := rfl
      rw [this, List.cons_append, List.take_append_drop]

theorem chunk4_getElem : ∀ (l : List Char) (i : ℕ), i < (chunk4 l).length →
    (chunk4 l)[i]? = some ((l.drop (4 * i)).take 4) := by
  intro l
  induction l using chunk4.induct with
  | case1 =>
      intro i h
      simp [chunk4] at h
  | case2 c t ih =>
      intro i h
      rw [chunk4_cons]
      match i with
      | 0 => simp
      | j + 1 =>
          have hj : j < (chunk4 (t.drop 3)).length := by
            rw [chunk4_cons] at h
            exact Nat.lt_of_succ_lt_succ (by simpa using h)
          rw [List.getElem?_cons_succ, ih j hj]
          have h1 : (c :: t).drop (4 * (j + 1)) = t.drop (4 * j + 3) := by
            have he : 4 * (j + 1) = (4 * j + 3) + 1 := by ring
            rw [he, List.drop_succ_cons]
          have h2 : (t.drop 3).drop (4 * j) = t.drop (4 * j + 3) := by
            rw [List.drop_drop, Nat.add_comm]
          rw [h2, h1]

/-- C8: for every word of length greater than six the approximate-BPE
tokenizer emits exactly the consecutive fixed 4-character pieces
w[0:4], w[4:8], ... in order, whose concatenation restores the word;
words of length at most six are emitted unchanged as a single token. -/
theorem c8_bpe_word_chunks :
    ∀ w : List Char,
      (6 < w.length →
        bpe_word w = chunk4 w ∧
        (∀ i : ℕ, i < (bpe_word w).length →
          (bpe_word w)[i]? = some ((w.drop (4 * i)).take 4)) ∧
        (bpe_word w).flatten = w) ∧
      (w.length ≤ 6 → bpe_word w = [w]) := by
  intro w
  constructor
  · intro h
    have h3 : ¬ w.length ≤ 3 := by omega
    have h6 : ¬ w.length ≤ 6 := by omega
    have heq : bpe_word w = chunk4 w := by
      unfold bpe_word
      simp [h3, h6]
    refine ⟨heq, ?_, ?_⟩
    · intro i hi
      rw [heq] at hi ⊢
      exact chunk4_getElem w i hi
    · rw [heq]
      exact chunk4_flatten w
  · intro h
    unfold bpe_word
    by_cases h3 : w.length ≤ 3
    · simp [h3]
    · simp [h3, h]

/-- C8 witness: the 9-letter word "headaches" is cut into "head",
"ache", "s", which concatenates back to the word; the 6-letter word
"nausea" stays a single token. -/
theorem c8_bpe_word_chunks_witness :
    (bpe_word (("headaches").toList)).flatten = ("headaches").toList ∧
    bpe_word (("nausea").toList) = [("nausea").toList] :=
  ⟨((c8_bpe_word_chunks (("headaches").toList)).1 (by decide)).2.2,
   (c8_bpe_word_chunks (("nausea").toList)).2 (by decide)⟩

/-! ## src/function_calling.py — call_function -/

/-- A small universe of Python values, enough for the function-calling
dispatcher's argument and result dictionaries. -/
inductive PyValue where
  | none
  | bool (b : Bool)
  | int (i : ℤ)
  | rat (q : ℚ)
  | str (s : String)
  | list (xs : List PyValue)
  | dict (fields : List (String × PyValue))

/-- A registered callable: keyword arguments in, either a value or a
raised exception out. -/
def PyFunc : Type :=
  List (String × PyValue) → Except PyExn PyValue

/-- Rendering `str(e)` of a raised exception, used in the error
message of `call_function`. -/
def pyExnMessage : PyExn → String
  | PyExn.jsonDecodeError => ("JSONDecodeError")
  | PyExn.valueError => ("ValueError")
  | PyExn.keyError => ("KeyError")
  | PyExn.typeError => ("TypeError")

/-- Embedding of `call_function` (src/function_calling.py, lines
548-559), parametric in the object's `available_functions` registry.
The Python `try/except Exception` materializes as the match on the
callee's `Except` result, so the dispatcher itself is total. -/
def call_function (available_functions : List (String × PyFunc))
    (function_name : String) (kwargs : List (String × PyValue)) :
    List (String × PyValue) :=
  match List.lookup function_name available_functions with
  | Option.none =>
      [(("error"), PyValue.str (("Function ") ++ function_name ++ (" not found")))]
  | Option.some f =>
      match f kwargs with
      | Except.ok result =>
          [(("success"), PyValue.bool true), (("result"), result),
           (("function_called"), PyValue.str function_name)]
      | Except.error e =>
          [(("error"), PyValue.str (("Error calling ") ++ function_name ++ (": ")
            ++ pyExnMessage e))]

/-- Bool test for a key being present in an embedded Python dict. -/
def hasKey (d : List (String × PyValue)) (k : String) : Bool :=
  (List.lookup k d).isSome

/-- C9: `call_function` is total (it returns a dictionary for every
registry, name and keyword-argument map — the `Except` of the callee
never escapes), the dictionary carries an "error" entry exactly when
the name is unregistered or the callee raises, and on success it is
`{"success": True, "result": result, "function_called": name}`. -/
theorem c9_call_function_total :
    ∀ (available_functions : List (String × PyFunc)) (function_name : String)
      (kwargs : List (String × PyValue)),
      (List.lookup function_name available_functions = Option.none →
        hasKey (call_function available_functions function_name kwargs) ("error") = true ∧
        hasKey (call_function available_functions function_name kwargs) ("success") = false) ∧
      (∀ (f : PyFunc) (e : PyExn),
        List.lookup function_name available_functions = Option.some f →
        f kwargs = Except.error e →
        hasKey (call_function available_functions function_name kwargs) ("error") = true ∧
        hasKey (call_function available_functions function_name kwargs) ("success") = false) ∧
      (∀ (f : PyFunc) (v : PyValue),
        List.lookup function_name available_functions = Option.some f →
        f kwargs = Except.ok v →
        call_function available_functions function_name kwargs =
          [(("success"), PyValue.bool true), (("result"), v),
           (("function_called"), PyValue.str function_name)]) := by
  intro fs name kwargs
  refine ⟨?_, ?_, ?_⟩
  · intro h
    unfold call_function
    rw [h]
    constructor <;> rfl
  · intro f e hf he
    unfold call_function
    simp only [hf, he]
    constructor <;> rfl
  · intro f v hf hv
    unfold call_function
    simp only [hf, hv]

/-- C9 witness: a two-entry registry exercised on a missing name, a
raising callee and a succeeding callee. -/
theorem c9_call_function_total_witness :
    hasKey (call_function [(("boom"), fun _ => Except.error PyExn.valueError)]
      ("nope") []) ("error") = true ∧
    hasKey (call_function [(("boom"), fun _ => Except.error PyExn.valueError)]
      ("boom") []) ("error") = true ∧
    call_function [(("ok"), fun _ => Except.ok (PyValue.int 7))] ("ok") [] =
      [(("success"), PyValue.bool true), (("result"), PyValue.int 7),
       (("function_called"), PyValue.str ("ok"))] :=
  ⟨((c9_call_function_total [(("boom"), fun _ => Except.error PyExn.valueError)]
      ("nope") []).1 rfl).1,
   ((c9_call_function_total [(("boom"), fun _ => Except.error PyExn.valueError)]
      ("boom") []).2.1 _ PyExn.valueError rfl rfl).1,
   (c9_call_function_total [(("ok"), fun _ => Except.ok (PyValue.int 7))]
      ("ok") []).2.2 _ (PyValue.int 7) rfl rfl⟩

/-! ## src/multi_shot_prompting.py and src/structured_output.py —
template renderers -/

/-- The `ResponseStyle` enum of src/multi_shot_prompting.py. -/
inductive ResponseStyle where
  | humorous
  | balanced
  | serious
  | encouraging
deriving DecidableEq, Repr

/-- The string value of a `ResponseStyle` enum member. -/
def ResponseStyle.value : ResponseStyle → String
  | ResponseStyle.humorous => ("humorous")
  | ResponseStyle.balanced => ("balanced")
  | ResponseStyle.serious => ("serious")
  | ResponseStyle.encouraging => ("encouraging")

/-- The `MultiShotExample` dataclass of src/multi_shot_prompting.py. -/
structure MultiShotExample where
  user_input : String
  ai_response : String
  style : ResponseStyle
  symptom_type : String
  key_features : List String
deriving DecidableEq, Repr

/-- Object state of `LaughRxMultiShotPrompting`: its `example_sets`
dict (keyed by category name) and its `base_system_prompt`.  The
renderer is verified for every state, which covers the concrete
example texts built in `_create_multi_shot_examples`. -/
structure MultiShotState where
  example_sets : List (String × List MultiShotExample)
  base_system_prompt : String
deriving DecidableEq, Repr

/-- Result dictionary of `create_multi_shot_prompt`. -/
structure MultiShotResult where
  system_prompt : String
  user_prompt : String
  examples_used : Nat
  example_category : String
  example_styles : List String
deriving DecidableEq, Repr

/-- The `enumerate(examples, 1)` loop of `create_multi_shot_prompt`
that accumulates `examples_text`. -/
def examplesText : Nat → List MultiShotExample → String
  | _, [] => ("")
  | i, e :: t =>
      ("\nEXAMPLE ") ++ toString i ++ (":\nUSER: ") ++ e.user_input ++ ("\nLAUGHRX: ")
        ++ e.ai_response ++ ("\n") ++ examplesText (i + 1) t

/-- Python's `", ".join(f"{k}: {v}" for k, v in d.items())`, with the
values already rendered as strings. -/
def contextParts (l : List (String × String)) : String :=
  String.intercalate (", ") (l.map (fun p => p.1 ++ (": ") ++ p.2))

/-- Embedding of `create_multi_shot_prompt` (src/multi_shot_prompting.py,
lines 163-193), in state-passing form: the returned state is the object
state after the call, which the method leaves untouched.  Python's
`self.example_sets.get(category, self.example_sets["common_symptoms"])`
evaluates the default first, so a state without the "common_symptoms"
key raises `KeyError`. -/
def create_multi_shot_prompt (st : MultiShotState) (symptoms : String)
    (example_category : String) (user_context : Option (List (String × String))) :
    Except PyExn (MultiShotResult × MultiShotState) :=
  match List.lookup ("common_symptoms") st.example_sets with
  | Option.none => Except.error PyExn.keyError
  | Option.some dflt =>
      let examples := (List.lookup example_category st.example_sets).getD dflt
      let examples_text := examplesText 1 examples
      let system_prompt := st.base_system_prompt
        ++ ("\n\nHere are examples showing different response styles:\n")
        ++ examples_text
        ++ ("\n\nNow respond to the new user input following the same structure and adapting your style appropriately.")
      let user_prompt :=
        match user_context with
        | Option.none => ("USER: ") ++ symptoms
        | Option.some ctx =>
            if ctx.isEmpty then ("USER: ") ++ symptoms
            else ("USER: ") ++ symptoms ++ ("\nContext: ") ++ contextParts ctx
      Except.ok
        ({ system_prompt := system_prompt
           user_prompt := user_prompt
           examples_used := examples.length
           example_category := example_category
           example_styles := examples.map (fun e => e.style.value) }, st)

/-- Object state of `LaughRxStructuredOutput` relevant to its prompt
builder: the structured system prompt and the default disclaimer. -/
structure StructuredOutputState where
  system_prompt : String
  medical_disclaimer : String
deriving DecidableEq, Repr

/-- Embedding of `create_structured_prompt` (src/structured_output.py,
lines 108-121), in state-passing form. -/
def create_structured_prompt (st : StructuredOutputState) (symptoms : String)
    (user_context : Option (List (String × String))) : String × StructuredOutputState :=
  let base := ("Symptoms: ") ++ symptoms
  let withCtx :=
    match user_context with
    | Option.none => base
    | Option.some ctx =>
        if ctx.isEmpty then base
        else base ++ ("\nContext: ") ++ contextParts ctx
  (withCtx ++ ("\n\nPlease respond with a JSON object following the LaughRx format."), st)

/-- C6: both template renderers are pure and deterministic — two calls
with identical object state and arguments return byte-identical
results, and the object state coming out of a call is exactly the
state going in (no mutation). -/
theorem c6_template_renderers_pure :
    (∀ (st : MultiShotState) (symptoms example_category : String)
       (user_context : Option (List (String × String))),
      create_multi_shot_prompt st symptoms example_category user_context =
        create_multi_shot_prompt st symptoms example_category user_context ∧
      (∀ (r : MultiShotResult) (st2 : MultiShotState),
        create_multi_shot_prompt st symptoms example_category user_context =
          Except.ok (r, st2) → st2 = st)) ∧
    (∀ (st : StructuredOutputState) (symptoms : String)
       (user_context : Option (List (String × String))),
      create_structured_prompt st symptoms user_context =
        create_structured_prompt st symptoms user_context ∧
      (create_structured_prompt st symptoms user_context).2 = st) := by
  constructor
  · intro st symptoms cat ctx
    refine ⟨rfl, ?_⟩
    intro r st2 h
    unfold create_multi_shot_prompt at h
    cases hl : List.lookup ("common_symptoms") st.example_sets with
    | none => rw [hl] at h; exact absurd h (by simp)
    | some dflt =>
        rw [hl] at h
        simp only [Except.ok.injEq, Prod.mk.injEq] at h
        exact h.2.symm
  · intro st symptoms ctx
    exact ⟨rfl, rfl⟩

/-- C6 witness: a concrete one-example state, category and context,
for which the renderers return and preserve the state. -/
theorem c6_template_renderers_pure_witness :
    (create_multi_shot_prompt
      { example_sets :=
          [(("common_symptoms"),
            [{ user_input := ("I have a headache")
               ai_response := ("drink water")
               style := ResponseStyle.humorous
               symptom_type := ("common_symptom")
               key_features := [("hydration")] }])]
        base_system_prompt := ("BASE") }
      ("tired all day") ("common_symptoms") (Option.some [(("age"), ("30"))]) =
     create_multi_shot_prompt
      { example_sets :=
          [(("common_symptoms"),
            [{ user_input := ("I have a headache")
               ai_response := ("drink water")
               style := ResponseStyle.humorous
               symptom_type := ("common_symptom")
               key_features := [("hydration")] }])]
        base_system_prompt := ("BASE") }
      ("tired all day") ("common_symptoms") (Option.some [(("age"), ("30"))])) ∧
    (create_structured_prompt
      { system_prompt := ("SYS"), medical_disclaimer := ("DISC") }
      ("tired all day") Option.none).2 =
      { system_prompt := ("SYS"), medical_disclaimer := ("DISC") } :=
  ⟨(c6_template_renderers_pure.1
      { example_sets :=
          [(("common_symptoms"),
            [{ user_input := ("I have a headache")
               ai_response := ("drink water")
               style := ResponseStyle.humorous
               symptom_type := ("common_symptom")
               key_features := [("hydration")] }])]
        base_system_prompt := ("BASE") }
      ("tired all day") ("common_symptoms") (Option.some [(("age"), ("30"))])).1,
   (c6_template_renderers_pure.2
      { system_prompt := ("SYS"), medical_disclaimer := ("DISC") }
      ("tired all day") Option.none).2⟩

/-! ## src/structured_output.py — JSON values and `json.loads` -/

/-- JSON values.  Numbers are embedded as rationals (the claims about
the Post-Processor do not depend on binary float rounding). -/
inductive Json where
  | null
  | bool (b : Bool)
  | num (q : ℚ)
  | str (s : String)
  | arr (xs : List Json)
  | obj (fields : List (String × Json))

/-- JSON whitespace. -/
def isJsonWs (c : Char) : Bool :=
  c = (' ') || c = ('\t') || c = ('\n') || c = ('\r')

/-- Drop leading JSON whitespace. -/
def skipWs (l : List Char) : List Char :=
  l.dropWhile isJsonWs

/-- Value of a run of decimal digits. -/
def digitsToNat (ds : List Char) : ℕ :=
  ds.foldl (fun a c => a * 10 + (c.toNat - 48)) 0

/-- JSON string literal body: characters after the opening quote up to
the closing quote, with the common escapes (`\uXXXX` is not modelled;
the claims do not involve it). -/
def parseStringAux (acc : List Char) : List Char → Except PyExn (String × List Char)
  | [] => Except.error PyExn.jsonDecodeError
  | c :: t =>
      if c = ('\x22') then Except.ok (String.mk acc.reverse, t)
      else if c = ('\\') then
        match t with
        | [] => Except.error PyExn.jsonDecodeError
        | e :: t2 =>
            if e = ('\x22') then parseStringAux (('\x22') :: acc) t2
            else if e = ('\\') then parseStringAux (('\\') :: acc) t2
            else if e = ('/') then parseStringAux (('/') :: acc) t2
            else if e = ('n') then parseStringAux (('\n') :: acc) t2
            else if e = ('t') then parseStringAux (('\t') :: acc) t2
            else if e = ('r') then parseStringAux (('\r') :: acc) t2
            else if e = ('b') then parseStringAux (('\x08') :: acc) t2
            else if e = ('f') then parseStringAux (('\x0c') :: acc) t2
            else Except.error PyExn.jsonDecodeError
      else parseStringAux (c :: acc) t

/-- JSON number grammar `-?int frac? exp?` (with JSON's no-leading-zero
rule), returning the value and the unconsumed input. -/
def parseNumber (l : List Char) : Except PyExn (ℚ × List Char) :=
  let (neg, l1) :=
    match l with
    | ('-') :: t => (true, t)
    | _ => (false, l)
  let d1 := l1.takeWhile Char.isDigit
  let r1 := l1.dropWhile Char.isDigit
  if d1.isEmpty then Except.error PyExn.jsonDecodeError
  else if 1 < d1.length ∧ d1.headD ('0') = ('0') then Except.error PyExn.jsonDecodeError
  else
    let (d2, r2) :=
      match r1 with
      | ('.') :: t => (t.takeWhile Char.isDigit, t.dropWhile Char.isDigit)
      | _ => ([], r1)
    if (match r1 with | ('.') :: _ => d2.isEmpty | _ => false) then
      Except.error PyExn.jsonDecodeError
    else
      let n : ℤ :=
        if neg then -(Int.ofNat (digitsToNat (d1 ++ d2)))
        else Int.ofNat (digitsToNat (d1 ++ d2))
      match r2 with
      | ('e') :: t | ('E') :: t =>
          let (eneg, t1) :=
            match t with
            | ('-') :: u => (true, u)
            | ('+') :: u => (false, u)
            | _ => (false, t)
          let d3 := t1.takeWhile Char.isDigit
          let r3 := t1.dropWhile Char.isDigit
          if d3.isEmpty then Except.error PyExn.jsonDecodeError
          else if eneg then
            Except.ok (mkRat n (10 ^ (d2.length + digitsToNat d3)), r3)
          else Except.ok (mkRat (n * 10 ^ digitsToNat d3) (10 ^ d2.length), r3)
      | _ => Except.ok (mkRat n (10 ^ d2.length), r2)

/-- Literal keyword tail such as "rue"/"alse"/"ull". -/
def expectLit (lit : List Char) (l : List Char) (v : Json) : Except PyExn (Json × List Char) :=
  if lit.isPrefixOf l then Except.ok (v, l.drop lit.length)
  else Except.error PyExn.jsonDecodeError

/-- Python dict insertion semantics for repeated keys: the original
position is kept, the value is replaced. -/
def dictInsert (fs : List (String × Json)) (k : String) (v : Json) :
    List (String × Json) :=
  if (List.lookup k fs).isSome then
    fs.map (fun p => if p.1 = k then (k, v) else p)
  else fs ++ [(k, v)]

/-- Parser mode: a JSON value, the remaining elements of an array, or
the remaining members of an object (with what is parsed so far). -/
inductive PMode where
  | value
  | elems (acc : List Json)
  | members (acc : List (String × Json))

/-- Recursive-descent JSON parser with fuel (the fuel given by
`json_loads` is ample for its input).  The three mutually recursive
procedures — value, array elements, object members — are combined
through `PMode` so that the recursion is structural on the fuel and
evaluates inside the kernel. -/
def parseJ : Nat → PMode → List Char → Except PyExn (Json × List Char)
  | 0, _, _ => Except.error PyExn.jsonDecodeError
  | Nat.succ fuel, PMode.value, l =>
      match skipWs l with
      | [] => Except.error PyExn.jsonDecodeError
      | c :: t =>
          if c = ('\x22') then
            match parseStringAux [] t with
            | Except.error e => Except.error e
            | Except.ok (s, rest) => Except.ok (Json.str s, rest)
          else if c = ('[') then
            match skipWs t with
            | (']') :: r => Except.ok (Json.arr [], r)
            | _ => parseJ fuel (PMode.elems []) t
          else if c = ('\x7b') then
            match skipWs t with
            | ('\x7d') :: r => Except.ok (Json.obj [], r)
            | _ => parseJ fuel (PMode.members []) t
          else if c = ('t') then expectLit [('r'), ('u'), ('e')] t (Json.bool true)
          else if c = ('f') then expectLit [('a'), ('l'), ('s'), ('e')] t (Json.bool false)
          else if c = ('n') then expectLit [('u'), ('l'), ('l')] t Json.null
          else if c = ('-') || c.isDigit then
            match parseNumber (c :: t) with
            | Except.error e => Except.error e
            | Except.ok (q, rest) => Except.ok (Json.num q, rest)
          else Except.error PyExn.jsonDecodeError
  | Nat.succ fuel, PMode.elems acc, l =>
      match parseJ fuel PMode.value l with
      | Except.error e => Except.error e
      | Except.ok (v, rest) =>
          match skipWs rest with
          | (',') :: r2 => parseJ fuel (PMode.elems (acc ++ [v])) r2
          | (']') :: r2 => Except.ok (Json.arr (acc ++ [v]), r2)
          | _ => Except.error PyExn.jsonDecodeError
  | Nat.succ fuel, PMode.members acc, l =>
      match skipWs l with
      | ('\x22') :: t =>
          match parseStringAux [] t with
          | Except.error e => Except.error e
          | Except.ok (k, rest) =>
              match skipWs rest with
              | (':') :: r2 =>
                  match parseJ fuel PMode.value r2 with
                  | Except.error e => Except.error e
                  | Except.ok (v, r3) =>
                      match skipWs r3 with
                      | (',') :: r4 => parseJ fuel (PMode.members (dictInsert acc k v)) r4
                      | ('\x7d') :: r4 => Except.ok (Json.obj (dictInsert acc k v), r4)
                      | _ => Except.error PyExn.jsonDecodeError
              | _ => Except.error PyExn.jsonDecodeError
      | _ => Except.error PyExn.jsonDecodeError

/-- Embedding of `json.loads`: parse one JSON value and require only
whitespace after it.  Any parse failure is the single exception type
`json.JSONDecodeError`. -/
def json_loads (s : String) : Except PyExn Json :=
  match parseJ (4 * s.length + 16) PMode.value s.data with
  | Except.error _ => Except.error PyExn.jsonDecodeError
  | Except.ok (v, rest) =>
      if (skipWs rest).isEmpty then Except.ok v
      else Except.error PyExn.jsonDecodeError

/-! ## src/structured_output.py — parse_ai_response -/

/-- First index of a character in a list. -/
def findIdx : List Char → Char → Option ℕ
  | [], _ => Option.none
  | c :: t, x => if c = x then Option.some 0 else (findIdx t x).map (fun i => i + 1)

/-- Last index of a character in a list (Python's `str.rfind`). -/
def rfindIdx (l : List Char) (x : Char) : Option ℕ :=
  (findIdx l.reverse x).map (fun i => l.length - 1 - i)

/-- Embedding of `_extract_json_from_response` (src/structured_output.py,
lines 155-166): slice from the first `{` to the last `}`; raise
`ValueError` when there is no such pair with the `}` strictly after
the `{`. -/
def extract_json_from_response (response : String) : Except PyExn String :=
  match findIdx response.data ('\x7b'), rfindIdx response.data ('\x7d') with
  | Option.some start, Option.some stop =>
      if start < stop then
        Except.ok (String.mk ((response.data.drop start).take (stop + 1 - start)))
      else Except.error PyExn.valueError
  | Option.some _, Option.none => Except.error PyExn.valueError
  | Option.none, _ => Except.error PyExn.valueError

/-- The `SeverityLevel` enum of src/structured_output.py. -/
inductive SeverityLevel where
  | low
  | moderate
  | high
  | urgent
deriving DecidableEq, Repr

/-- The `ResponseType` enum of src/structured_output.py. -/
inductive ResponseType where
  | roast_and_advice
  | serious_concern
  | wellness_tip
  | emergency_redirect
deriving DecidableEq, Repr

/-- Python's `SeverityLevel(value)` enum lookup by value: raises
`ValueError` on anything but the four member strings. -/
def toSeverityLevel : Json → Except PyExn SeverityLevel
  | Json.str s =>
      if s = ("low") then Except.ok SeverityLevel.low
      else if s = ("moderate") then Except.ok SeverityLevel.moderate
      else if s = ("high") then Except.ok SeverityLevel.high
      else if s = ("urgent") then Except.ok SeverityLevel.urgent
      else Except.error PyExn.valueError
  | _ => Except.error PyExn.valueError

/-- Python's `ResponseType(value)` enum lookup by value. -/
def toResponseType : Json → Except PyExn ResponseType
  | Json.str s =>
      if s = ("roast_and_advice") then Except.ok ResponseType.roast_and_advice
      else if s = ("serious_concern") then Except.ok ResponseType.serious_concern
      else if s = ("wellness_tip") then Except.ok ResponseType.wellness_tip
      else if s = ("emergency_redirect") then Except.ok ResponseType.emergency_redirect
      else Except.error PyExn.valueError
  | _ => Except.error PyExn.valueError

/-- Numeric-string parsing of Python's `float(str)`: strip whitespace,
optional sign, digits with optional decimal point (at least one digit)
and optional exponent ("inf"/"nan" are not modelled — they cannot be
rationals and the claims do not involve them). -/
def parseFloatChars (l0 : List Char) : Option ℚ :=
  let l := ((l0.dropWhile isJsonWs).reverse.dropWhile isJsonWs).reverse
  let (neg, l1) :=
    match l with
    | ('-') :: t => (true, t)
    | ('+') :: t => (false, t)
    | _ => (false, l)
  let d1 := l1.takeWhile Char.isDigit
  let r1 := l1.dropWhile Char.isDigit
  let (d2, r2) :=
    match r1 with
    | ('.') :: t => (t.takeWhile Char.isDigit, t.dropWhile Char.isDigit)
    | _ => ([], r1)
  if d1.isEmpty ∧ d2.isEmpty then Option.none
  else
    let mant : ℚ := (digitsToNat (d1 ++ d2) : ℚ) / (10 ^ d2.length)
    let signed := if neg then -mant else mant
    match r2 with
    | [] => Option.some signed
    | e :: t =>
        if e = ('e') ∨ e = ('E') then
          let (eneg, t1) :=
            match t with
            | ('-') :: u => (true, u)
            | ('+') :: u => (false, u)
            | _ => (false, t)
          let d3 := t1.takeWhile Char.isDigit
          let r3 := t1.dropWhile Char.isDigit
          if d3.isEmpty ∨ ¬ r3.isEmpty then Option.none
          else if eneg then Option.some (signed / 10 ^ digitsToNat d3)
          else Option.some (signed * 10 ^ digitsToNat d3)
        else Option.none

/-- Python's `float(x)` applied to a decoded JSON value: numbers pass
through, booleans become 0/1, numeric strings are parsed
(non-numeric strings raise `ValueError`), and `None`, lists and dicts
raise `TypeError`. -/
def pyFloat : Json → Except PyExn ℚ
  | Json.num q => Except.ok q
  | Json.bool b => Except.ok (if b then 1 else 0)
  | Json.str s =>
      match parseFloatChars s.data with
      | Option.some q => Except.ok q
      | Option.none => Except.error PyExn.valueError
  | _ => Except.error PyExn.typeError

/-- The `LaughRxResponse` dataclass.  Fields that Python does not
type-check (roast, tags, ...) keep the decoded JSON value. -/
structure LaughRxResponse where
  roast : Json
  diagnosis : Json
  advice : Json
  severity : SeverityLevel
  response_type : ResponseType
  confidence_score : ℚ
  tags : Json
  medical_disclaimer : Json
  follow_up_questions : Option Json

/-- The default `self.medical_disclaimer`. -/
def medical_disclaimer_default : String :=
  ("This is for entertainment purposes only. Always consult a healthcare professional for medical concerns.")

/-- Dict field lookup `data[k]` / `data.get(k)`. -/
def jget (fs : List (String × Json)) (k : String) : Option Json :=
  List.lookup k fs

/-- The `required_fields` list of `parse_ai_response`. -/
def required_fields : List String :=
  [("roast"), ("diagnosis"), ("advice"), ("severity"), ("response_type"),
   ("confidence_score"), ("tags")]

/-- The required-fields loop: `ValueError` as soon as a field is
missing. -/
def checkRequired (fs : List (String × Json)) : Except PyExn Unit :=
  if required_fields.all (fun f => (jget fs f).isSome) then Except.ok ()
  else Except.error PyExn.valueError

/-- Embedding of `_create_fallback_response` (src/structured_output.py,
lines 168-182). -/
def create_fallback_response : LaughRxResponse :=
  { roast := Json.str
      ("Oops! My roast circuits are having a moment - but I\x27m still here to help! 🤖")
    diagnosis := Json.str
      ("I\x27m having trouble processing your symptoms in my usual witty way.")
    advice := Json.str
      ("Please try rephrasing your symptoms, and I\x27ll give you a proper LaughRx response. If this persists, consult a healthcare professional.")
    severity := SeverityLevel.low
    response_type := ResponseType.roast_and_advice
    confidence_score := 1/10
    tags := Json.arr [Json.str ("system_error"), Json.str ("fallback")]
    medical_disclaimer := Json.str medical_disclaimer_default
    follow_up_questions :=
      Option.some (Json.arr [Json.str ("Could you describe your symptoms differently?")]) }

/-- The `try` body of `parse_ai_response`: extract, decode, check the
required fields, then build the response, converting the two enums and
the confidence value in Python's argument evaluation order. -/
def parse_body (ai_response : String) : Except PyExn LaughRxResponse :=
  match extract_json_from_response ai_response with
  | Except.error e => Except.error e
  | Except.ok cleaned =>
      match json_loads cleaned with
      | Except.error e => Except.error e
      | Except.ok (Json.obj fs) =>
          match checkRequired fs with
          | Except.error e => Except.error e
          | Except.ok _ =>
              match toSeverityLevel ((jget fs ("severity")).getD Json.null) with
              | Except.error e => Except.error e
              | Except.ok sev =>
                  match toResponseType ((jget fs ("response_type")).getD Json.null) with
                  | Except.error e => Except.error e
                  | Except.ok rt =>
                      match pyFloat ((jget fs ("confidence_score")).getD Json.null) with
                      | Except.error e => Except.error e
                      | Except.ok conf =>
                          Except.ok
                            { roast := (jget fs ("roast")).getD Json.null
                              diagnosis := (jget fs ("diagnosis")).getD Json.null
                              advice := (jget fs ("advice")).getD Json.null
                              severity := sev
                              response_type := rt
                              confidence_score := conf
                              tags := (jget fs ("tags")).getD Json.null
                              medical_disclaimer :=
                                (jget fs ("medical_disclaimer")).getD
                                  (Json.str medical_disclaimer_default)
                              follow_up_questions := jget fs ("follow_up_questions") }
      | Except.ok _ => Except.error PyExn.typeError

/-- The `except (json.JSONDecodeError, ValueError, KeyError)` clause:
which exceptions the handler catches. -/
def isCaught : PyExn → Bool
  | PyExn.jsonDecodeError => true
  | PyExn.valueError => true
  | PyExn.keyError => true
  | PyExn.typeError => false

/-- Embedding of `parse_ai_response` (src/structured_output.py, lines
123-153): run the body; the three listed exception classes fall back,
anything else propagates. -/
def parse_ai_response (ai_response : String) : Except PyExn LaughRxResponse :=
  match parse_body ai_response with
  | Except.ok r => Except.ok r
  | Except.error e =>
      if isCaught e then Except.ok create_fallback_response
      else Except.error e

/-- The malformed-input categories the claim enumerates: no JSON
object present (extraction or decoding fails), a missing required
field, or an invalid enum value. -/
def malformedEnumerated (s : String) : Bool :=
  match extract_json_from_response s with
  | Except.error _ => true
  | Except.ok cleaned =>
      match json_loads cleaned with
      | Except.error _ => true
      | Except.ok (Json.obj fs) =>
          (!required_fields.all (fun f => (jget fs f).isSome)) ||
          (match toSeverityLevel ((jget fs ("severity")).getD Json.null) with
           | Except.error _ => true
           | Except.ok _ =>
              match toResponseType ((jget fs ("response_type")).getD Json.null) with
              | Except.error _ => true
              | Except.ok _ => false)
      | Except.ok _ => false

/-- Confidence score of a parse result (0 for a propagated
exception). -/
def confOf : Except PyExn LaughRxResponse → ℚ
  | Except.ok r => r.confidence_score
  | Except.error _ => 0

theorem extract_error_eq (s : String) (e : PyExn)
    (h : extract_json_from_response s = Except.error e) : e = PyExn.valueError := by
  unfold extract_json_from_response at h
  cases h1 : findIdx s.data ('\x7b') with
  | none =>
      rw [h1] at h
      simp at h
      exact h.symm
  | some i =>
      cases h2 : rfindIdx s.data ('\x7d') with
      | none =>
          rw [h1, h2] at h
          simp at h
          exact h.symm
      | some j =>
          rw [h1, h2] at h
          by_cases hij : i < j
          · simp [hij] at h
          · simp [hij] at h
            exact h.symm

theorem json_loads_error_eq (s : String) (e : PyExn)
    (h : json_loads s = Except.error e) : e = PyExn.jsonDecodeError := by
  unfold json_loads at h
  cases hp : parseJ (4 * s.length + 16) PMode.value s.data with
  | error e2 =>
      rw [hp] at h
      simp at h
      exact h.symm
  | ok vr =>
      obtain ⟨v, rest⟩ := vr
      rw [hp] at h
      by_cases hr : (skipWs rest).isEmpty = true
      · simp [hr] at h
      · simp [hr] at h
        exact h.symm

theorem toSeverityLevel_error_eq (j : Json) (e : PyExn)
    (h : toSeverityLevel j = Except.error e) : e = PyExn.valueError := by
  cases j with
  | str s =>
      simp only [toSeverityLevel] at h
      split_ifs at h <;> simp_all
  | null => simp [toSeverityLevel] at h; exact h.symm
  | bool b => simp [toSeverityLevel] at h; exact h.symm
  | num q => simp [toSeverityLevel] at h; exact h.symm
  | arr xs => simp [toSeverityLevel] at h; exact h.symm
  | obj fs => simp [toSeverityLevel] at h; exact h.symm

theorem toResponseType_error_eq (j : Json) (e : PyExn)
    (h : toResponseType j = Except.error e) : e = PyExn.valueError := by
  cases j with
  | str s =>
      simp only [toResponseType] at h
      split_ifs at h <;> simp_all
  | null => simp [toResponseType] at h; exact h.symm
  | bool b => simp [toResponseType] at h; exact h.symm
  | num q => simp [toResponseType] at h; exact h.symm
  | arr xs => simp [toResponseType] at h; exact h.symm
  | obj fs => simp [toResponseType] at h; exact h.symm

theorem isCaught_false_eq (e : PyExn) (h : isCaught e = false) : e = PyExn.typeError := by
  cases e with
  | typeError => rfl
  | jsonDecodeError => simp [isCaught] at h
  | valueError => simp [isCaught] at h
  | keyError => simp [isCaught] at h

/-- A syntactically valid model response whose `confidence_score` is
the JSON `null`: `float(None)` raises `TypeError`, which the handler
does not catch. -/
def c2_null_confidence_input : String :=
  ("\x7b\x22roast\x22: \x22a\x22, \x22diagnosis\x22: \x22b\x22, \x22advice\x22: \x22c\x22, \x22severity\x22: \x22low\x22, \x22response_type\x22: \x22roast_and_advice\x22, \x22confidence_score\x22: null, \x22tags\x22: []\x7d")

set_option maxRecDepth 8000 in
/-- C2 counterexample: `parse_ai_response` does raise to its caller —
on well-formed JSON whose `confidence_score` is `null`, the uncaught
`TypeError` from `float(None)` propagates instead of producing the
fallback. -/
theorem c2_never_raises_counterexample :
    parse_ai_response c2_null_confidence_input = Except.error PyExn.typeError := by
  rfl

/-- C2 (amended): `parse_ai_response` lets only `TypeError` escape
(raised by `float` on a `confidence_score` that is `null`, a list or
an object); on the malformed inputs the claim enumerates — no JSON
object present, missing required field, invalid enum value — it
returns the static fallback, whose severity is "low" and whose tags
carry the "system_error"/"fallback" parse-failure markers. -/
theorem c2_parse_ai_response_amended :
    (∀ (ai_response : String) (e : PyExn),
      parse_ai_response ai_response = Except.error e → e = PyExn.typeError) ∧
    (∀ ai_response : String,
      malformedEnumerated ai_response = true →
      parse_ai_response ai_response = Except.ok create_fallback_response) ∧
    create_fallback_response.severity = SeverityLevel.low ∧
    create_fallback_response.tags =
      Json.arr [Json.str ("system_error"), Json.str ("fallback")] := by
  refine ⟨?_, ?_, rfl, rfl⟩
  · intro s e h
    unfold parse_ai_response at h
    cases hb : parse_body s with
    | ok r =>
        rw [hb] at h
        simp at h
    | error e2 =>
        rw [hb] at h
        cases hc : isCaught e2 with
        | true => simp [hc] at h
        | false =>
            simp [hc] at h
            rw [← h]
            exact isCaught_false_eq e2 hc
  · intro s hm
    unfold malformedEnumerated at hm
    unfold parse_ai_response parse_body
    cases hx : extract_json_from_response s with
    | error e =>
        have he : e = PyExn.valueError := extract_error_eq s e hx
        subst he
        simp only [hx]
        rfl
    | ok cleaned =>
        simp only [hx] at hm
        cases hj : json_loads cleaned with
        | error e =>
            have he : e = PyExn.jsonDecodeError := json_loads_error_eq cleaned e hj
            subst he
            simp only [hx, hj]
            rfl
        | ok data =>
            simp only [hj] at hm
            cases data with
            | obj fs =>
                simp only [hx, hj]
                by_cases hall : required_fields.all (fun f => (jget fs f).isSome) = true
                · have hck : checkRequired fs = Except.ok () := by
                    unfold checkRequired
                    rw [if_pos hall]
                  simp only [hck]
                  simp only [hall, Bool.not_true, Bool.false_or] at hm
                  cases hs : toSeverityLevel ((jget fs ("severity")).getD Json.null) with
                  | error e =>
                      have he : e = PyExn.valueError := toSeverityLevel_error_eq _ e hs
                      subst he
                      simp only [hs]
                      rfl
                  | ok sev =>
                      simp only [hs] at hm
                      cases hr : toResponseType ((jget fs ("response_type")).getD Json.null) with
                      | error e =>
                          have he : e = PyExn.valueError := toResponseType_error_eq _ e hr
                          subst he
                          simp only [hr]
                          rfl
                      | ok rt =>
                          simp only [hr] at hm
                          exact Bool.noConfusion hm
                · have hally : required_fields.all (fun f => (jget fs f).isSome) = false := by
                    revert hall
                    cases required_fields.all (fun f => (jget fs f).isSome) <;> simp
                  have hck : checkRequired fs = Except.error PyExn.valueError := by
                    unfold checkRequired
                    rw [if_neg hall]
                  simp only [hck]
                  rfl
            | null => simp at hm
            | bool b => simp at hm
            | num q => simp at hm
            | str s2 => simp at hm
            | arr xs => simp at hm

set_option maxRecDepth 8000 in
/-- C2 witness: the amended theorem applied at concrete inputs — the
null-confidence input is the (unique) escaping `TypeError` case, and a
free-text non-JSON input is mapped to the fallback. -/
theorem c2_parse_ai_response_amended_witness :
    PyExn.typeError = PyExn.typeError ∧
    parse_ai_response ("no json here") = Except.ok create_fallback_response :=
  ⟨c2_parse_ai_response_amended.1 c2_null_confidence_input PyExn.typeError (by rfl),
   c2_parse_ai_response_amended.2.1 ("no json here") (by rfl)⟩

/-- C3 (amended): on fully well-formed model JSON the Post-Processor
passes `confidence_score` through `float(...)` unchanged — no clamping
into [0,1] is applied at any stage. -/
theorem c3_confidence_passthrough :
    ∀ (ai_response cleaned : String) (fs : List (String × Json))
      (sev : SeverityLevel) (rt : ResponseType) (q : ℚ),
      extract_json_from_response ai_response = Except.ok cleaned →
      json_loads cleaned = Except.ok (Json.obj fs) →
      checkRequired fs = Except.ok () →
      toSeverityLevel ((jget fs ("severity")).getD Json.null) = Except.ok sev →
      toResponseType ((jget fs ("response_type")).getD Json.null) = Except.ok rt →
      pyFloat ((jget fs ("confidence_score")).getD Json.null) = Except.ok q →
      parse_ai_response ai_response = Except.ok
        { roast := (jget fs ("roast")).getD Json.null
          diagnosis := (jget fs ("diagnosis")).getD Json.null
          advice := (jget fs ("advice")).getD Json.null
          severity := sev
          response_type := rt
          confidence_score := q
          tags := (jget fs ("tags")).getD Json.null
          medical_disclaimer :=
            (jget fs ("medical_disclaimer")).getD (Json.str medical_disclaimer_default)
          follow_up_questions := jget fs ("follow_up_questions") } := by
  intro s cleaned fs sev rt q h1 h2 h3 h4 h5 h6
  unfold parse_ai_response parse_body
  simp only [h1, h2, h3, h4, h5, h6]

/-- A syntactically valid model response whose `confidence_score` is
2.5, outside [0,1]. -/
def c3_overrange_input : String :=
  ("\x7b\x22roast\x22: \x22a\x22, \x22diagnosis\x22: \x22b\x22, \x22advice\x22: \x22c\x22, \x22severity\x22: \x22low\x22, \x22response_type\x22: \x22roast_and_advice\x22, \x22confidence_score\x22: 2.5, \x22tags\x22: []\x7d")

/-- The decoded field dictionary of `c3_overrange_input`. -/
def c3_overrange_fields : List (String × Json) :=
  [(("roast"), Json.str ("a")), (("diagnosis"), Json.str ("b")), (("advice"), Json.str ("c")),
   (("severity"), Json.str ("low")), (("response_type"), Json.str ("roast_and_advice")),
   (("confidence_score"), Json.num (mkRat 25 10)), (("tags"), Json.arr [])]

set_option maxRecDepth 20000 in
/-- C3 counterexample: `parse_ai_response` accepts the well-formed
JSON with `confidence_score` 2.5 and returns it unclamped — the
produced response's confidence score is 2.5, not inside [0,1]. -/
theorem c3_confidence_clamped_counterexample :
    confOf (parse_ai_response c3_overrange_input) = mkRat 25 10 ∧
    ¬ confOf (parse_ai_response c3_overrange_input) ≤ 1 := by
  have h : confOf (parse_ai_response c3_overrange_input) = mkRat 25 10 := by rfl
  refine ⟨h, ?_⟩
  rw [h, Rat.mkRat_eq_div]
  norm_num

set_option maxRecDepth 20000 in
/-- C3 witness: the pass-through theorem applied to the concrete
2.5-confidence input, with every pipeline-stage hypothesis discharged
by evaluation. -/
theorem c3_confidence_passthrough_witness :
    parse_ai_response c3_overrange_input = Except.ok
      { roast := (jget c3_overrange_fields ("roast")).getD Json.null
        diagnosis := (jget c3_overrange_fields ("diagnosis")).getD Json.null
        advice := (jget c3_overrange_fields ("advice")).getD Json.null
        severity := SeverityLevel.low
        response_type := ResponseType.roast_and_advice
        confidence_score := mkRat 25 10
        tags := (jget c3_overrange_fields ("tags")).getD Json.null
        medical_disclaimer :=
          (jget c3_overrange_fields ("medical_disclaimer")).getD
            (Json.str medical_disclaimer_default)
        follow_up_questions := jget c3_overrange_fields ("follow_up_questions") } :=
  c3_confidence_passthrough c3_overrange_input c3_overrange_input c3_overrange_fields
    SeverityLevel.low ResponseType.roast_and_advice (mkRat 25 10)
    (by rfl) (by rfl) (by rfl) (by rfl) (by rfl) (by rfl)
